import Mathlib

/-!
Shallow embedding of the browser-process lifecycle coordinator of
`browserbase/agent-browse` (files `src/cli.ts`, `stagehand-tools.ts`,
`browser-utils.ts`).

The coordinator is single-threaded JavaScript; every effectful primitive it
calls (HTTP probes of the CDP endpoint, `spawn`, `process.kill`, `ps`,
`tasklist`, the `.chrome-pid` ledger file) is supplied here by an explicit
environment record, and each run is reflected as a value plus a trace of the
effects it issued, in program order.  `try { … } catch { … }` blocks of the
source are mirrored by `match` on `Except` values; an operation the source
does not guard propagates its error through the `Except` result of the
embedding.
-/

namespace AgentBrowse

/-- `process.platform` as the coordinator distinguishes it. -/
inductive Platform where
  | darwin
  | linux
  | win32
  | other
  deriving DecidableEq, Repr

-- Equality on `Except` results is decidable (used to evaluate runs on
-- concrete inputs).
deriving instance DecidableEq for Except

/-- JavaScript `String.prototype.trim`, on the character list of a string:
strip whitespace from both ends. -/
def trimL (s : List Char) : List Char :=
  ((s.dropWhile Char.isWhitespace).reverse.dropWhile Char.isWhitespace).reverse

/-- JavaScript `String.prototype.toLowerCase` (ASCII range), on the
character list of a string. -/
def toLowerL (s : List Char) : List Char :=
  s.map Char.toLower

/-- JavaScript `String.prototype.includes`: substring test on character
lists. -/
def hasSubL (s pat : List Char) : Bool :=
  (List.range (s.length + 1)).any fun i => pat.isPrefixOf (s.drop i)

/-- Environment seen by `verifyIsChromeProcess`: the platform and, per pid,
the outcome of the `ps -p <pid> -o comm=` and
`tasklist /FI "PID eq <pid>"` shell-outs (`.error` = command failed, e.g.
no such process). -/
structure OsEnv where
  platform : Platform
  ps : Nat → Except Unit String
  tasklist : Nat → Except Unit String

/-- Embedding of `verifyIsChromeProcess` (`src/cli.ts` lines 225-243):
on darwin/linux the trimmed, lower-cased `ps` comm must contain
`chrome` or `chromium`; on win32 the lower-cased `tasklist` output must
contain `chrome`; any exec failure or any other platform yields `false`
(the whole body is wrapped in `try … catch { return false }`, so the
function never throws). -/
def verifyIsChromeProcess (env : OsEnv) (pid : Nat) : Bool :=
  match env.platform with
  | .darwin | .linux =>
    match env.ps pid with
    | .ok out =>
      let processName := toLowerL (trimL out.data)
      hasSubL processName "chrome".data || hasSubL processName "chromium".data
    | .error _ => false
  | .win32 =>
    match env.tasklist pid with
    | .ok out => hasSubL (toLowerL out.data) "chrome".data
    | .error _ => false
  | .other => false

/-- In-memory module state of `src/cli.ts`: the memoized Stagehand handle
and page (opaque values, `none` = null), whether `chromeProcess` is
non-null, and the `weStartedChrome` flag. -/
structure CliState where
  stagehandInstance : Option Nat
  currentPage : Option Nat
  chromeProcess : Bool
  weStartedChrome : Bool
  deriving DecidableEq, Repr

/-- Effects issued by `closeBrowser`, in program order. -/
inductive CloseEffect where
  | gracefulClose
  | handleTerm
  | handleKill
  | cdpProbe (step : Nat)
  | tempGracefulClose
  | sleep (ms : Nat)
  | pidKill (pid : Nat)
  | unlinkLedger
  deriving DecidableEq, Repr

/-- Environment seen by one `closeBrowser` run (`src/cli.ts` lines 125-223).
Fallible awaited operations appear as `Except` values; `ledger` is the
`.chrome-pid` file: `none` = absent, `some (.error ())` = present but
unreadable/unparsable, `some (.ok pid)` = parses to the recorded pid;
`unlinkFails` says whether the `unlinkSync` of the ledger file in the
`finally` block throws (e.g. EACCES/EBUSY) — that error is swallowed by its
own `catch` and leaves the file in place. -/
structure CloseEnv where
  os : OsEnv
  stagehandCloseResult : Except Unit Unit
  handleTermThrows : Bool
  handleExitedAfterTerm : Bool
  probe1 : Except Unit Bool
  tempInit : Except Unit Unit
  tempClose : Except Unit Unit
  probe2 : Except Unit Bool
  ledger : Option (Except Unit Nat)
  pidKillThrows : Nat → Bool
  unlinkFails : Bool

/-- Result of a `closeBrowser` run: the updated in-memory state, whether the
`.chrome-pid` ledger file still exists afterwards, and the effect trace. -/
structure CloseResult where
  state : CliState
  ledgerAfter : Bool
  trace : List CloseEffect
  deriving DecidableEq, Repr

/-- Embedding of step 1 of `closeBrowser` (lines 129-138): if a Stagehand
instance is held, close it (errors logged and swallowed) and null the
instance and page. -/
def closeStep1 (env : CloseEnv) (s : CliState) : CliState × List CloseEffect :=
  match s.stagehandInstance with
  | some _ =>
    -- `try { await stagehandInstance.close() } catch { log }`; either way
    -- the close is attempted and the fields are nulled afterwards.
    match env.stagehandCloseResult with
    | .ok _ => ({ s with stagehandInstance := none, currentPage := none }, [.gracefulClose])
    | .error _ => ({ s with stagehandInstance := none, currentPage := none }, [.gracefulClose])
  | none => (s, [])

/-- Embedding of step 2 of `closeBrowser` (lines 141-154): if this process
spawned Chrome, SIGTERM the handle, wait 1s, and SIGKILL it if it has not
exited; a throw from the first kill skips the escalation (caught by the
surrounding `catch`).  The handle and flag are cleared afterwards. -/
def closeStep2 (env : CloseEnv) (s : CliState) : CliState × List CloseEffect :=
  if s.chromeProcess && s.weStartedChrome then
    let cleared : CliState := { s with chromeProcess := false, weStartedChrome := false }
    if env.handleTermThrows then
      (cleared, [.handleTerm])
    else if env.handleExitedAfterTerm then
      (cleared, [.handleTerm, .sleep 1000])
    else
      (cleared, [.handleTerm, .sleep 1000, .handleKill])
  else
    (s, [])

/-- Embedding of the inner `try` of `closeBrowser` (lines 181-209): re-probe
the endpoint; if Chrome still answers and a ledger file exists, parse it and
force-kill the recorded pid only when `verifyIsChromeProcess` confirms it;
every throw in this region (probe failure, unreadable ledger, kill failure)
is swallowed by `catch { }`. -/
def closeInner (env : CloseEnv) : List CloseEffect :=
  match env.probe2 with
  | .error _ => [.cdpProbe 2]
  | .ok false => [.cdpProbe 2]
  | .ok true =>
    match env.ledger with
    | none => [.cdpProbe 2]
    | some (.error _) => [.cdpProbe 2]
    | some (.ok pid) =>
      if verifyIsChromeProcess env.os pid then
        -- win32 `taskkill /PID <pid> /F` or `process.kill(pid, 'SIGKILL')`;
        -- a throw here lands in the same swallowing `catch`.
        [.cdpProbe 2, .pidKill pid]
      else
        [.cdpProbe 2]

/-- Embedding of the outer `try` of `closeBrowser` (lines 157-212): probe the
endpoint; if it answers, open a throwaway Stagehand, close it gracefully,
wait 2s, then run the inner check; any throw is swallowed by the outer
`catch`. -/
def closeOuter (env : CloseEnv) : List CloseEffect :=
  match env.probe1 with
  | .error _ => [.cdpProbe 1]
  | .ok false => [.cdpProbe 1]
  | .ok true =>
    match env.tempInit with
    | .error _ => [.cdpProbe 1]
    | .ok _ =>
      match env.tempClose with
      | .error _ => [.cdpProbe 1, .tempGracefulClose]
      | .ok _ => [.cdpProbe 1, .tempGracefulClose, .sleep 2000] ++ closeInner env

/-- Embedding of `closeBrowser` (`src/cli.ts` lines 125-223).  The `finally`
block attempts to delete the ledger file whenever it exists
(`if (existsSync(pidFilePath)) { try { unlinkSync(pidFilePath) } catch { } }`):
the unlink is always issued, but when the call itself throws the error is
ignored and the file survives.  Every fallible operation of the source body
is covered by a `catch`, which the `Except` result makes checkable: the run
always ends in `.ok`. -/
def closeBrowser (env : CloseEnv) (s : CliState) : Except Unit CloseResult :=
  let (s1, t1) := closeStep1 env s
  let (s2, t2) := closeStep2 env s1
  let t3 := closeOuter env
  let (ledgerAfter, t4) :=
    match env.ledger with
    | some _ =>
      if env.unlinkFails then (true, [CloseEffect.unlinkLedger])
      else (false, [CloseEffect.unlinkLedger])
    | none => (false, [])
  .ok { state := s2, ledgerAfter := ledgerAfter, trace := t1 ++ t2 ++ t3 ++ t4 }

/-- `stdio` disposition of one stream in a `spawn` call. -/
inductive StdioMode where
  | ignore
  | pipe
  deriving DecidableEq, Repr

/-- The `stdio` option of a `spawn` call, one mode per standard stream. -/
structure StdioConfig where
  stdin : StdioMode
  stdout : StdioMode
  stderr : StdioMode
  deriving DecidableEq, Repr

/-- Effects issued during session acquisition, in program order.
`spawnChrome` records the `stdio` configuration of the launch and whether
`data` listeners are attached to the child's output streams. -/
inductive InitEffect where
  | initialProbe
  | spawnChrome (cfg : StdioConfig) (drainHandlers : Bool)
  | writeLedger (pid : Nat)
  | waitProbe (i : Nat)
  | sleep (ms : Nat)
  | stagehandInit
  | pageProbe (i : Nat)
  | mkdirDownloads
  | setDownloadBehavior
  deriving DecidableEq, Repr

/-- Embedding of the readiness-wait loop
(`for (let i = 0; i < 50; i++) { try { fetch …; if (ok) break } catch {};
await sleep(interval) }`, `src/cli.ts` lines 64-76 and
`stagehand-tools.ts` lines 73-88).  `probe i` is the outcome of the fetch on
attempt `i` (`.error` = fetch threw, `.ok b` = response with `ok = b`); a
successful attempt breaks before the sleep, every other attempt sleeps
`interval` ms. -/
def waitUntilReady (probe : Nat → Except Unit Bool) (interval : Nat) :
    Nat → Nat → Bool × List InitEffect
  | 0, _ => (false, [])
  | fuel + 1, i =>
    match probe i with
    | .ok true => (true, [.waitProbe i])
    | .ok false =>
      let r := waitUntilReady probe interval fuel (i + 1)
      (r.1, .waitProbe i :: .sleep interval :: r.2)
    | .error _ =>
      let r := waitUntilReady probe interval fuel (i + 1)
      (r.1, .waitProbe i :: .sleep interval :: r.2)

/-- Embedding of the page-readiness loop
(`while (retries < 30) { try { evaluate; break } catch { sleep 100;
retries++ } }`, `src/cli.ts` lines 97-106 and `stagehand-tools.ts`
lines 109-122).  `pageEval r` says whether the evaluate on attempt `r`
succeeds; returns the final `retries` value and the trace. -/
def pageReadyLoop (pageEval : Nat → Bool) : Nat → Nat → Nat × List InitEffect
  | 0, r => (r, [])
  | fuel + 1, r =>
    if pageEval r then (r, [.pageProbe r])
    else
      let res := pageReadyLoop pageEval fuel (r + 1)
      (res.1, .pageProbe r :: .sleep 100 :: res.2)

/-- Environment seen by one `initBrowser` run (`src/cli.ts` lines 17-123).
`chromePath` is `findLocalChrome()`; `initialProbe` is the first fetch of
`/json/version`; `spawnPid` is `chromeProcess.pid` after `spawn` (`none` =
undefined, i.e. the spawn failed to report a pid); `waitProbe` feeds the
readiness-wait loop; `newHandle`/`newPage` are the fresh Stagehand instance
and page. -/
structure InitEnv where
  chromePath : Option String
  initialProbe : Except Unit Bool
  spawnPid : Option Nat
  waitProbe : Nat → Except Unit Bool
  stagehandInitResult : Except Unit Unit
  pageEval : Nat → Bool
  downloadsDirExists : Bool
  cdpDownloadConfig : Except Unit Unit
  newHandle : Nat
  newPage : Nat

/-- Errors `initBrowser` can throw to its caller. -/
inductive InitErr where
  | noChrome
  | startupTimeout
  | stagehandInitFailed
  | downloadConfigFailed
  deriving DecidableEq, Repr

/-- Result of an `initBrowser` run: updated module state, the returned
`(stagehand, page)` pair or the thrown error, and the effect trace. -/
structure InitResult where
  state : CliState
  ret : Except InitErr (Nat × Option Nat)
  trace : List InitEffect

/-- Embedding of `initBrowser`'s Stagehand tail (`src/cli.ts` lines 83-122),
shared by the reuse and launch branches: assign `stagehandInstance` (the
assignment happens before `init()` resolves, so it persists even if `init`
throws), run `init`, set `currentPage`, poll page readiness (the cli version
does not throw when the 30 retries are exhausted), ensure the downloads
directory, and configure download behavior over a CDP session. -/
def initTail (env : InitEnv) (s : CliState) (t : List InitEffect) : InitResult :=
  let s1 : CliState := { s with stagehandInstance := some env.newHandle }
  match env.stagehandInitResult with
  | .error _ =>
    { state := s1, ret := .error .stagehandInitFailed, trace := t ++ [.stagehandInit] }
  | .ok _ =>
    let s2 : CliState := { s1 with currentPage := some env.newPage }
    let pt := (pageReadyLoop env.pageEval 30 0).2
    let mk : List InitEffect := if env.downloadsDirExists then [] else [.mkdirDownloads]
    match env.cdpDownloadConfig with
    | .error _ =>
      { state := s2, ret := .error .downloadConfigFailed,
        trace := t ++ [.stagehandInit] ++ pt ++ mk ++ [.setDownloadBehavior] }
    | .ok _ =>
      { state := s2, ret := .ok (env.newHandle, some env.newPage),
        trace := t ++ [.stagehandInit] ++ pt ++ mk ++ [.setDownloadBehavior] }

/-- The ledger write performed after `spawn` (`src/cli.ts` lines 55-61):
`if (chromeProcess.pid) { writeFileSync('.chrome-pid', …) }` — the entry is
written only when the spawned handle reports a truthy (non-zero) pid. -/
def ledgerWriteTrace : Option Nat → List InitEffect
  | some pid => if 0 < pid then [InitEffect.writeLedger pid] else []
  | none => []

/-- Embedding of `initBrowser` (`src/cli.ts` lines 17-123): return the
memoized handle if present; fail fast when no Chrome executable is found;
probe the endpoint once and reuse when it answers ok; otherwise spawn Chrome
with `stdio: 'ignore'`, write the `.chrome-pid` ledger when the spawn
reports a (truthy) pid, run the 50 × 300 ms readiness wait, throw
`'Chrome failed to start'` when it stays not-ready, and mark
`weStartedChrome` on success. -/
def initBrowser (env : InitEnv) (s : CliState) : InitResult :=
  match s.stagehandInstance with
  | some h => { state := s, ret := .ok (h, s.currentPage), trace := [] }
  | none =>
    match env.chromePath with
    | none => { state := s, ret := .error .noChrome, trace := [] }
    | some _ =>
      let ready0 := match env.initialProbe with | .ok true => true | _ => false
      if ready0 then
        initTail env s [.initialProbe]
      else
        let s1 : CliState := { s with chromeProcess := true }
        let w := waitUntilReady env.waitProbe 300 50 0
        let t := [InitEffect.initialProbe,
                  InitEffect.spawnChrome ⟨.ignore, .ignore, .ignore⟩ false]
                 ++ ledgerWriteTrace env.spawnPid ++ w.2
        if w.1 then
          initTail env { s1 with weStartedChrome := true } t
        else
          { state := s1, ret := .error .startupTimeout, trace := t }

/-- In-memory module state of `stagehand-tools.ts`. -/
structure ToolsState where
  stagehandInstance : Option Nat
  currentPage : Option Nat
  chromeProcess : Bool
  deriving DecidableEq, Repr

/-- Environment seen by one `getStagehand` run (`stagehand-tools.ts` lines
15-143); same reading as `InitEnv` (this path has no initial probe and no
ledger write). -/
structure ToolsEnv where
  chromePath : Option String
  waitProbe : Nat → Except Unit Bool
  stagehandInitResult : Except Unit Unit
  pageEval : Nat → Bool
  downloadsDirExists : Bool
  cdpDownloadConfig : Except Unit Unit
  newHandle : Nat
  newPage : Nat

/-- Errors `getStagehand` can throw to its caller. -/
inductive ToolsErr where
  | noChrome
  | startupTimeout
  | stagehandInitFailed
  | pageNotReady
  | downloadConfigFailed
  deriving DecidableEq, Repr

/-- Result of a `getStagehand` run. -/
structure ToolsResult where
  state : ToolsState
  ret : Except ToolsErr (Nat × Option Nat)
  trace : List InitEffect

/-- Embedding of `getStagehand` (`stagehand-tools.ts` lines 15-143): if no
instance is memoized, find Chrome (long installation-guidance error when
absent), spawn it with `stdio: ['ignore', 'pipe', 'pipe']` and `data`
listeners attached to stdout/stderr, run the 50 × 300 ms readiness wait,
initialize Stagehand, poll page readiness and throw
`'Browser failed to become ready within timeout'` when the 30 retries are
exhausted, then configure downloads; finally return the memoized pair. -/
def getStagehand (env : ToolsEnv) (s : ToolsState) : ToolsResult :=
  match s.stagehandInstance with
  | some h => { state := s, ret := .ok (h, s.currentPage), trace := [] }
  | none =>
    match env.chromePath with
    | none => { state := s, ret := .error .noChrome, trace := [] }
    | some _ =>
      let s1 : ToolsState := { s with chromeProcess := true }
      let w := waitUntilReady env.waitProbe 300 50 0
      let t := [InitEffect.spawnChrome ⟨.ignore, .pipe, .pipe⟩ true] ++ w.2
      if w.1 then
        let s2 : ToolsState := { s1 with stagehandInstance := some env.newHandle }
        match env.stagehandInitResult with
        | .error _ =>
          { state := s2, ret := .error .stagehandInitFailed, trace := t ++ [.stagehandInit] }
        | .ok _ =>
          let s3 : ToolsState := { s2 with currentPage := some env.newPage }
          let p := pageReadyLoop env.pageEval 30 0
          if 30 ≤ p.1 then
            { state := s3, ret := .error .pageNotReady, trace := t ++ [.stagehandInit] ++ p.2 }
          else
            let mk : List InitEffect := if env.downloadsDirExists then [] else [.mkdirDownloads]
            match env.cdpDownloadConfig with
            | .error _ =>
              { state := s3, ret := .error .downloadConfigFailed,
                trace := t ++ [.stagehandInit] ++ p.2 ++ mk ++ [.setDownloadBehavior] }
            | .ok _ =>
              { state := s3, ret := .ok (env.newHandle, some env.newPage),
                trace := t ++ [.stagehandInit] ++ p.2 ++ mk ++ [.setDownloadBehavior] }
      else
        { state := s1, ret := .error .startupTimeout, trace := t }

/-- The Zod validator kinds the `extract` schema conversion can produce. -/
inductive ZodType where
  | string
  | number
  | boolean
  deriving DecidableEq, Repr

/-- Embedding of the schema-conversion loop of `extract`
(`src/cli.ts` lines 287-300 and `stagehand-tools.ts` lines 238-251):
iterate over the entries of the request schema in order and assign a
validator for the types `"string"`, `"number"`, `"boolean"`; the `switch`
has no `default` case, so any other declared type assigns nothing. -/
def buildZodSchema : List (String × String) → List (String × ZodType)
  | [] => []
  | (k, t) :: rest =>
    if t = "string" then (k, ZodType.string) :: buildZodSchema rest
    else if t = "number" then (k, ZodType.number) :: buildZodSchema rest
    else if t = "boolean" then (k, ZodType.boolean) :: buildZodSchema rest
    else buildZodSchema rest

/-- The validator, if any, that one declared type produces in the
schema-conversion `switch`. -/
def zodOfType (t : String) : Option ZodType :=
  if t = "string" then some ZodType.string
  else if t = "number" then some ZodType.number
  else if t = "boolean" then some ZodType.boolean
  else none

/-! Helper predicates over traces. -/

/-- Is the effect a Launcher invocation? -/
def isSpawn : InitEffect → Bool
  | .spawnChrome _ _ => true
  | _ => false

/-- Is the effect a write of the `.chrome-pid` Ownership Ledger? -/
def isLedgerWrite : InitEffect → Bool
  | .writeLedger _ => true
  | _ => false

/-- Is the effect a readiness-wait probe? -/
def isWaitProbe : InitEffect → Bool
  | .waitProbe _ => true
  | _ => false

/-- Number of Launcher invocations in a trace. -/
def countSpawns (t : List InitEffect) : Nat := t.countP isSpawn

/-- Number of Ownership Ledger writes in a trace. -/
def countLedgerWrites (t : List InitEffect) : Nat := t.countP isLedgerWrite

/-- Number of readiness-wait probes in a trace. -/
def countWaitProbes (t : List InitEffect) : Nat := t.countP isWaitProbe

/-! Sample environments used to instantiate the theorems below on concrete
inputs. -/

/-- A process table on which pid 42 is a chrome executable. -/
def sampleOs : OsEnv where
  platform := .linux
  ps := fun pid => if pid = 42 then .ok "chrome" else .error ()
  tasklist := fun _ => .error ()

/-- A shutdown environment: endpoint reachable, graceful close leaves it
reachable, ledger records pid 42, and pid 42 is verified as chrome. -/
def sampleCloseEnv : CloseEnv where
  os := sampleOs
  stagehandCloseResult := .ok ()
  handleTermThrows := false
  handleExitedAfterTerm := true
  probe1 := .ok true
  tempInit := .ok ()
  tempClose := .ok ()
  probe2 := .ok true
  ledger := some (.ok 42)
  pidKillThrows := fun _ => false
  unlinkFails := false

/-- The result of running `closeBrowser` on `sampleCloseEnv` from a fresh
state. -/
def sampleCloseResult : CloseResult where
  state := { stagehandInstance := none, currentPage := none,
             chromeProcess := false, weStartedChrome := false }
  ledgerAfter := false
  trace := [.cdpProbe 1, .tempGracefulClose, .sleep 2000,
            .cdpProbe 2, .pidKill 42, .unlinkLedger]

/-- A shutdown environment in which a ledger entry exists but the
`unlinkSync` of the ledger file itself fails (error swallowed). -/
def failUnlinkCloseEnv : CloseEnv where
  os := sampleOs
  stagehandCloseResult := .ok ()
  handleTermThrows := false
  handleExitedAfterTerm := true
  probe1 := .error ()
  tempInit := .ok ()
  tempClose := .ok ()
  probe2 := .error ()
  ledger := some (.ok 42)
  pidKillThrows := fun _ => false
  unlinkFails := true

/-- The empty in-memory state of a fresh CLI invocation. -/
def freshCliState : CliState where
  stagehandInstance := none
  currentPage := none
  chromeProcess := false
  weStartedChrome := false

/-- An OS environment whose process-table lookup fails for every pid. -/
def psFailOs : OsEnv where
  platform := .linux
  ps := fun _ => .error ()
  tasklist := fun _ => .error ()

/-- An acquisition environment in which the endpoint never becomes ready:
the initial probe and every wait probe throw. -/
def timeoutInitEnv : InitEnv where
  chromePath := some "/usr/bin/google-chrome"
  initialProbe := .error ()
  spawnPid := some 77
  waitProbe := fun _ => .error ()
  stagehandInitResult := .ok ()
  pageEval := fun _ => true
  downloadsDirExists := true
  cdpDownloadConfig := .ok ()
  newHandle := 1
  newPage := 2

/-- An acquisition environment in which the initial probe reports ready. -/
def reuseInitEnv : InitEnv where
  chromePath := some "/usr/bin/google-chrome"
  initialProbe := .ok true
  spawnPid := none
  waitProbe := fun _ => .error ()
  stagehandInitResult := .ok ()
  pageEval := fun _ => true
  downloadsDirExists := true
  cdpDownloadConfig := .ok ()
  newHandle := 1
  newPage := 2

/-- A launch-scenario environment: endpoint not ready at first, spawn
reports pid 77, first wait probe succeeds. -/
def launchInitEnv : InitEnv where
  chromePath := some "/usr/bin/google-chrome"
  initialProbe := .ok false
  spawnPid := some 77
  waitProbe := fun _ => .ok true
  stagehandInitResult := .ok ()
  pageEval := fun _ => true
  downloadsDirExists := true
  cdpDownloadConfig := .ok ()
  newHandle := 1
  newPage := 2

/-- Identical launch scenario except that the spawned handle reports no
pid (`chromeProcess.pid` is undefined). -/
def noPidInitEnv : InitEnv where
  chromePath := some "/usr/bin/google-chrome"
  initialProbe := .ok false
  spawnPid := none
  waitProbe := fun _ => .ok true
  stagehandInitResult := .ok ()
  pageEval := fun _ => true
  downloadsDirExists := true
  cdpDownloadConfig := .ok ()
  newHandle := 1
  newPage := 2

/-- A CLI state holding a memoized handle from an earlier acquisition. -/
def memoCliState : CliState where
  stagehandInstance := some 5
  currentPage := some 9
  chromeProcess := false
  weStartedChrome := false

/-- A tools-server environment in which the launch succeeds at once. -/
def launchToolsEnv : ToolsEnv where
  chromePath := some "/usr/bin/google-chrome"
  waitProbe := fun _ => .ok true
  stagehandInitResult := .ok ()
  pageEval := fun _ => true
  downloadsDirExists := true
  cdpDownloadConfig := .ok ()
  newHandle := 1
  newPage := 2

/-- The empty in-memory state of a fresh tools-server process. -/
def freshToolsState : ToolsState where
  stagehandInstance := none
  currentPage := none
  chromeProcess := false

/-- A tools-server state holding a memoized handle. -/
def memoToolsState : ToolsState where
  stagehandInstance := some 5
  currentPage := some 9
  chromeProcess := false

/-! Helper lemmas. -/

/-- Every effect of the readiness-wait trace is a probe or a sleep. -/
theorem mem_wait_trace (p : Nat → Except Unit Bool) (int : Nat) :
    ∀ fuel i e, e ∈ (waitUntilReady p int fuel i).2 →
      (∃ j, e = InitEffect.waitProbe j) ∨ ∃ m, e = InitEffect.sleep m := by
  intro fuel
  induction fuel with
  | zero => intro i e he; simp [waitUntilReady] at he
  | succ n ih =>
    intro i e he
    rw [waitUntilReady] at he
    rcases hp : p i with u | b
    · rw [hp] at he
      simp only [List.mem_cons] at he
      rcases he with h | h | h
      · exact Or.inl ⟨i, h⟩
      · exact Or.inr ⟨int, h⟩
      · exact ih (i + 1) e h
    · rw [hp] at he
      cases b with
      | true => simp only [List.mem_singleton] at he; exact Or.inl ⟨i, he⟩
      | false =>
        simp only [List.mem_cons] at he
        rcases he with h | h | h
        · exact Or.inl ⟨i, h⟩
        · exact Or.inr ⟨int, h⟩
        · exact ih (i + 1) e h

/-- Every effect of the page-readiness trace is a page probe or a sleep. -/
theorem mem_page_trace (g : Nat → Bool) :
    ∀ fuel r e, e ∈ (pageReadyLoop g fuel r).2 →
      (∃ j, e = InitEffect.pageProbe j) ∨ ∃ m, e = InitEffect.sleep m := by
  intro fuel
  induction fuel with
  | zero => intro r e he; simp [pageReadyLoop] at he
  | succ n ih =>
    intro r e he
    rw [pageReadyLoop] at he
    by_cases hg : g r
    · rw [if_pos hg] at he
      simp only [List.mem_singleton] at he
      exact Or.inl ⟨r, he⟩
    · rw [if_neg hg] at he
      simp only [List.mem_cons] at he
      rcases he with h | h | h
      · exact Or.inl ⟨r, h⟩
      · exact Or.inr ⟨100, h⟩
      · exact ih (r + 1) e h

/-- The Stagehand tail adds no Launcher invocation and no ledger write to
the trace, and does not touch the `weStartedChrome` flag. -/
theorem initTail_trace_and_flag (env : InitEnv) (s : CliState) (t : List InitEffect) :
    (∀ e, e ∈ (initTail env s t).trace → e ∈ t ∨ (isSpawn e = false ∧ isLedgerWrite e = false))
    ∧ (initTail env s t).state.weStartedChrome = s.weStartedChrome := by
  constructor
  · intro e he
    unfold initTail at he
    rcases hi : env.stagehandInitResult with u | u <;> rw [hi] at he
    · rw [List.mem_append] at he
      rcases he with h | h
      · exact Or.inl h
      · right
        rw [List.mem_singleton] at h
        subst h; exact ⟨rfl, rfl⟩
    · rcases hc : env.cdpDownloadConfig with v | v <;> rw [hc] at he <;>
      · simp only [List.append_assoc, List.mem_append, List.mem_singleton] at he
        rcases he with h | h | h | h | h
        · exact Or.inl h
        · right; subst h; exact ⟨rfl, rfl⟩
        · right
          rcases mem_page_trace env.pageEval 30 0 e h with ⟨j, hj⟩ | ⟨m, hm⟩
          · subst hj; exact ⟨rfl, rfl⟩
          · subst hm; exact ⟨rfl, rfl⟩
        · right
          rcases hd : env.downloadsDirExists <;>
            simp only [hd, Bool.false_eq_true, if_false, if_true,
              List.mem_singleton, List.not_mem_nil] at h
          subst h; exact ⟨rfl, rfl⟩
        · right; subst h; exact ⟨rfl, rfl⟩
  · unfold initTail
    rcases hi : env.stagehandInitResult with u | u
    · rfl
    · rcases hc : env.cdpDownloadConfig with v | v <;> rfl

/-! C3: `closeBrowser` never throws. -/

/-- C3.  Every fallible awaited operation of `closeBrowser` — the Stagehand
close, the handle kills, the two endpoint probes, the throwaway connection,
the ledger read/parse, the process-table lookup, the forceful kill, the
ledger file deletion (`unlinkFails`) — sits inside a `try … catch` that
swallows the error, so for every combination of these failures, every
environment and in-memory state, the run returns normally (`.ok`),
never propagating an error. -/
theorem closeBrowser_never_throws (env : CloseEnv) (s : CliState) :
    ∃ r, closeBrowser env s = Except.ok r :=
  ⟨_, rfl⟩

/-! C2: the fate of the ledger file after shutdown. -/

/-- Step 1 of `closeBrowser` issues no ledger unlink. -/
theorem unlink_not_in_closeStep1 (env : CloseEnv) (s : CliState) :
    CloseEffect.unlinkLedger ∉ (closeStep1 env s).2 := by
  unfold closeStep1
  rcases hs : s.stagehandInstance with _ | a
  · simp
  · rcases hc : env.stagehandCloseResult with u | u <;> simp

/-- Step 2 of `closeBrowser` issues no ledger unlink. -/
theorem unlink_not_in_closeStep2 (env : CloseEnv) (s : CliState) :
    CloseEffect.unlinkLedger ∉ (closeStep2 env s).2 := by
  unfold closeStep2
  rcases hb : s.chromeProcess && s.weStartedChrome
  · simp
  · rcases ht : env.handleTermThrows
    · rcases hx : env.handleExitedAfterTerm <;> simp
    · simp

/-- The inner force-kill region issues no ledger unlink. -/
theorem unlink_not_in_closeInner (env : CloseEnv) :
    CloseEffect.unlinkLedger ∉ closeInner env := by
  unfold closeInner
  rcases hp : env.probe2 with u | b
  · simp [hp]
  · cases b
    · simp [hp]
    · rcases hl : env.ledger with _ | le
      · simp [hp, hl]
      · rcases le with u | pid2
        · simp [hp, hl]
        · by_cases hv : verifyIsChromeProcess env.os pid2 = true <;>
            simp [hp, hl, hv]

/-- The graceful region of `closeBrowser` issues no ledger unlink. -/
theorem unlink_not_in_closeOuter (env : CloseEnv) :
    CloseEffect.unlinkLedger ∉ closeOuter env := by
  unfold closeOuter
  rcases hp : env.probe1 with u | b
  · simp [hp]
  · cases b
    · simp [hp]
    · rcases hi : env.tempInit with u | u
      · simp [hp, hi]
      · rcases hc : env.tempClose with u | u
        · simp [hp, hi, hc]
        · intro h
          simp only [hp, hi, hc, List.mem_append, List.mem_cons,
            List.not_mem_nil, or_false] at h
          rcases h with (h | h | h) | h
          · exact absurd h (by simp)
          · exact absurd h (by simp)
          · exact absurd h (by simp)
          · exact absurd h (unlink_not_in_closeInner env)

/-- C2 counterexample: when the `unlinkSync` of the ledger file itself
fails — an error the source's `catch { /* Ignore cleanup errors */ }`
swallows — the `.chrome-pid` file still exists after `closeBrowser`
completes, refuting the claim that the file never survives shutdown. -/
theorem closeBrowser_ledger_counterexample :
    Except.map (fun r => r.ledgerAfter) (closeBrowser failUnlinkCloseEnv freshCliState)
      = Except.ok true := by
  decide

/-- C2 (amended).  For every starting configuration (ledger file present or
absent, endpoint reachable or not, handle held or not), the `finally` block
of `closeBrowser` attempts the deletion exactly when the ledger file
exists (the unlink effect is in the trace iff the file was present), and
afterwards the file exists only if it was present and the `unlinkSync`
call itself failed (that error being swallowed); whenever the deletion
primitive does not fail, the file is gone. -/
theorem closeBrowser_ledger_final (env : CloseEnv) (s : CliState) (r : CloseResult)
    (hr : closeBrowser env s = Except.ok r) :
    r.ledgerAfter = (env.ledger.isSome && env.unlinkFails)
    ∧ ((CloseEffect.unlinkLedger ∈ r.trace) ↔ env.ledger.isSome = true) := by
  have hcan := Except.ok.inj hr
  rw [← hcan]
  refine ⟨?_, ?_, ?_⟩
  · rcases hl : env.ledger with _ | le <;> rcases hu : env.unlinkFails <;>
      simp [hl, hu]
  · intro h
    simp only [List.append_assoc, List.mem_append] at h
    rcases h with h | h | h | h
    · exact absurd h (unlink_not_in_closeStep1 env s)
    · exact absurd h (unlink_not_in_closeStep2 env (closeStep1 env s).1)
    · exact absurd h (unlink_not_in_closeOuter env)
    · rcases hl : env.ledger with _ | le <;> rcases hu : env.unlinkFails <;>
        simp [hl, hu] at h ⊢
  · intro h
    rcases hl : env.ledger with _ | le
    · rw [hl] at h; simp at h
    · simp only [List.append_assoc, List.mem_append]
      right; right; right
      rcases hu : env.unlinkFails <;> simp [hl, hu]

/-- Witness for C2 (amended): in the concrete run of `sampleCloseEnv`
(ledger present, deletion succeeds) the unlink is issued and the file is
gone afterwards. -/
theorem closeBrowser_ledger_final_witness :
    sampleCloseResult.ledgerAfter
        = (sampleCloseEnv.ledger.isSome && sampleCloseEnv.unlinkFails)
    ∧ ((CloseEffect.unlinkLedger ∈ sampleCloseResult.trace)
        ↔ sampleCloseEnv.ledger.isSome = true) :=
  closeBrowser_ledger_final sampleCloseEnv freshCliState sampleCloseResult (by decide)

/-! C9: `verifyIsChromeProcess` is fail-closed. -/

/-- C9.  `verifyIsChromeProcess` is fail-closed: on darwin/linux a failing
`ps` lookup yields `false`, on win32 a failing `tasklist` lookup yields
`false`, and on any other platform the result is `false` — the function is
total (the source wraps its body in `try … catch { return false }`), so a
failed identity lookup can never enable a kill. -/
theorem verifyIsChromeProcess_fail_closed (env : OsEnv) (pid : Nat) :
    ((env.platform = .darwin ∨ env.platform = .linux) → env.ps pid = .error () →
      verifyIsChromeProcess env pid = false)
    ∧ (env.platform = .win32 → env.tasklist pid = .error () →
      verifyIsChromeProcess env pid = false)
    ∧ (env.platform = .other → verifyIsChromeProcess env pid = false) := by
  refine ⟨?_, ?_, ?_⟩
  · intro hplat herr
    rcases hplat with h | h <;> simp [verifyIsChromeProcess, h, herr]
  · intro hplat herr
    simp [verifyIsChromeProcess, hplat, herr]
  · intro hplat
    simp [verifyIsChromeProcess, hplat]

/-- Witness for C9: on an environment whose `ps` fails for every pid
(linux), the verification for pid 7 returns `false`. -/
theorem verifyIsChromeProcess_fail_closed_witness :
    psFailOs.ps 7 = .error () ∧ verifyIsChromeProcess psFailOs 7 = false :=
  ⟨rfl, (verifyIsChromeProcess_fail_closed psFailOs 7).1 (Or.inr rfl) rfl⟩

/-! C10: the extract schema conversion silently drops unknown types. -/

/-- The conversion loop keeps exactly the entries whose declared type is
`"string"`, `"number"`, or `"boolean"`, in order. -/
theorem buildZodSchema_eq (schema : List (String × String)) :
    buildZodSchema schema
      = schema.filterMap fun p => (zodOfType p.2).map fun z => (p.1, z) := by
  induction schema with
  | nil => rfl
  | cons p rest ih =>
    obtain ⟨k, t⟩ := p
    by_cases h1 : t = "string"
    · simp [buildZodSchema, zodOfType, h1, ih]
    · by_cases h2 : t = "number"
      · simp [buildZodSchema, zodOfType, h1, h2, ih]
      · by_cases h3 : t = "boolean"
        · simp [buildZodSchema, zodOfType, h1, h2, h3, ih]
        · simp [buildZodSchema, zodOfType, h1, h2, h3, ih]

/-- C10.  In the `extract` schema conversion (identical loop in
`src/cli.ts` and `stagehand-tools.ts`), a field whose declared type is not
`"string"`, `"number"`, or `"boolean"` is silently dropped: the constructed
schema is exactly the valid-typed entries mapped to their validators (no
error is raised — the `switch` has no `default`), and a key all of whose
declared types are invalid is absent from the constructed schema. -/
theorem extract_drops_unknown_types (schema : List (String × String)) (k t : String)
    (hmem : (k, t) ∈ schema) (hbad : zodOfType t = none)
    (hall : ∀ u, (k, u) ∈ schema → zodOfType u = none) :
    buildZodSchema schema
      = (schema.filterMap fun p => (zodOfType p.2).map fun z => (p.1, z))
    ∧ k ∉ (buildZodSchema schema).map Prod.fst := by
  refine ⟨buildZodSchema_eq schema, ?_⟩
  rw [buildZodSchema_eq]
  intro hk
  simp only [List.mem_map] at hk
  obtain ⟨q, hq, hfst⟩ := hk
  rw [List.mem_filterMap] at hq
  obtain ⟨p, hp, hpq⟩ := hq
  rcases hz : zodOfType p.2 with _ | z
  · rw [hz] at hpq; simp at hpq
  · rw [hz] at hpq
    simp only [Option.map] at hpq
    have hq2 : (p.1, z) = q := Option.some.inj hpq
    have hk1 : p.1 = k := by
      have := congrArg Prod.fst hq2
      simpa [hfst] using this
    have hmemk : (k, p.2) ∈ schema := by
      rw [← hk1]
      exact hp
    have := hall p.2 hmemk
    rw [this] at hz
    exact Option.noConfusion hz

/-- Witness for C10: in the schema `{title: string, count: array}` the
`array`-typed field `count` is dropped from the constructed schema. -/
theorem extract_drops_unknown_types_witness :
    zodOfType "array" = none
    ∧ "count" ∉ (buildZodSchema [("title", "string"), ("count", "array")]).map Prod.fst := by
  refine ⟨by decide, ?_⟩
  refine (extract_drops_unknown_types [("title", "string"), ("count", "array")]
    "count" "array" (by simp) (by decide) ?_).2
  intro u hu
  simp only [List.mem_cons, List.not_mem_nil, or_false, Prod.mk.injEq] at hu
  rcases hu with ⟨h1, _⟩ | ⟨_, h2⟩
  · exact absurd h1 (by decide)
  · subst h2; decide

/-! C1: a ledger pid is force-killed only after positive verification. -/

/-- Step 1 of `closeBrowser` issues no forceful pid kill. -/
theorem pidKill_not_in_closeStep1 (env : CloseEnv) (s : CliState) (pid : Nat) :
    CloseEffect.pidKill pid ∉ (closeStep1 env s).2 := by
  unfold closeStep1
  rcases hs : s.stagehandInstance with _ | a
  · simp
  · rcases hc : env.stagehandCloseResult with u | u <;> simp

/-- Step 2 of `closeBrowser` (the handle kill of a process this invocation
spawned) issues no forceful pid kill on a ledger pid. -/
theorem pidKill_not_in_closeStep2 (env : CloseEnv) (s : CliState) (pid : Nat) :
    CloseEffect.pidKill pid ∉ (closeStep2 env s).2 := by
  unfold closeStep2
  rcases hb : s.chromeProcess && s.weStartedChrome
  · simp
  · rcases ht : env.handleTermThrows
    · rcases hx : env.handleExitedAfterTerm <;> simp
    · simp

/-- The inner force-kill region issues `pidKill pid` only when
`verifyIsChromeProcess` confirmed `pid`. -/
theorem pidKill_in_closeInner (env : CloseEnv) (pid : Nat)
    (h : CloseEffect.pidKill pid ∈ closeInner env) :
    verifyIsChromeProcess env.os pid = true := by
  unfold closeInner at h
  rcases hp : env.probe2 with u | b
  · simp [hp] at h
  · cases b
    · simp [hp] at h
    · rcases hl : env.ledger with _ | le
      · simp [hp, hl] at h
      · rcases le with u | pid2
        · simp [hp, hl] at h
        · simp only [hp, hl] at h
          by_cases hv : verifyIsChromeProcess env.os pid2 = true
          · rw [if_pos hv] at h
            simp only [List.mem_cons, List.not_mem_nil, or_false] at h
            rcases h with h | h
            · exact absurd h (by simp)
            · have hpp : pid = pid2 := by injection h
              rw [hpp]
              exact hv
          · rw [if_neg hv] at h
            simp at h

/-- The graceful region of `closeBrowser` issues `pidKill pid` only when
`verifyIsChromeProcess` confirmed `pid`. -/
theorem pidKill_in_closeOuter (env : CloseEnv) (pid : Nat)
    (h : CloseEffect.pidKill pid ∈ closeOuter env) :
    verifyIsChromeProcess env.os pid = true := by
  unfold closeOuter at h
  rcases hp : env.probe1 with u | b
  · simp [hp] at h
  · cases b
    · simp [hp] at h
    · rcases hi : env.tempInit with u | u
      · simp [hp, hi] at h
      · rcases hc : env.tempClose with u | u
        · simp [hp, hi, hc] at h
        · simp only [hp, hi, hc, List.mem_append, List.mem_cons,
            List.not_mem_nil, or_false] at h
          rcases h with (h | h | h) | h
          · exact absurd h (by simp)
          · exact absurd h (by simp)
          · exact absurd h (by simp)
          · exact pidKill_in_closeInner env pid h

/-- C1.  During shutdown, a forceful kill of a process id read from the
`.chrome-pid` Ownership Ledger is issued only if `verifyIsChromeProcess`
returned `true` for that id, i.e. the OS process table confirmed the id
names a chrome/chromium executable; in particular, with a ledger entry
whose pid names a non-browser process, no `pidKill` is issued. -/
theorem closeBrowser_kills_only_verified (env : CloseEnv) (s : CliState)
    (r : CloseResult) (pid : Nat)
    (hr : closeBrowser env s = Except.ok r)
    (hmem : CloseEffect.pidKill pid ∈ r.trace) :
    verifyIsChromeProcess env.os pid = true := by
  have hcan := Except.ok.inj hr
  rw [← hcan] at hmem
  simp only [List.append_assoc, List.mem_append] at hmem
  rcases hmem with h | h | h | h
  · exact absurd h (pidKill_not_in_closeStep1 env s pid)
  · exact absurd h (pidKill_not_in_closeStep2 env (closeStep1 env s).1 pid)
  · exact pidKill_in_closeOuter env pid h
  · rcases hl : env.ledger with _ | le <;> rcases hu : env.unlinkFails <;>
      simp [hl, hu] at h

/-- Witness for C1: in a concrete run in which the endpoint stays reachable
and the ledger records pid 42 (a verified chrome process), the forceful
kill of 42 is actually issued, and the verification holds. -/
theorem closeBrowser_kills_only_verified_witness :
    closeBrowser sampleCloseEnv freshCliState
      = Except.ok
          { state := freshCliState, ledgerAfter := false,
            trace := [.cdpProbe 1, .tempGracefulClose, .sleep 2000,
                      .cdpProbe 2, .pidKill 42, .unlinkLedger] }
    ∧ verifyIsChromeProcess sampleCloseEnv.os 42 = true :=
  ⟨by decide,
    closeBrowser_kills_only_verified sampleCloseEnv freshCliState
      { state := freshCliState, ledgerAfter := false,
        trace := [.cdpProbe 1, .tempGracefulClose, .sleep 2000,
                  .cdpProbe 2, .pidKill 42, .unlinkLedger] }
      42 (by decide) (by decide)⟩

/-! C4: the readiness wait is bounded and non-throwing. -/

/-- If no probe ever answers ok, the wait loop reports not-ready and its
trace holds exactly `fuel` probes. -/
theorem waitUntilReady_all_fail (p : Nat → Except Unit Bool) (int : Nat)
    (hp : ∀ j, p j ≠ Except.ok true) :
    ∀ fuel i, (waitUntilReady p int fuel i).1 = false
      ∧ countWaitProbes (waitUntilReady p int fuel i).2 = fuel := by
  intro fuel
  induction fuel with
  | zero => intro i; exact ⟨rfl, rfl⟩
  | succ n ih =>
    intro i
    rcases hpi : p i with u | b
    · simp only [waitUntilReady, hpi]
      refine ⟨(ih (i + 1)).1, ?_⟩
      have h2 := (ih (i + 1)).2
      simp only [countWaitProbes, List.countP_cons] at h2 ⊢
      simp [isWaitProbe, h2]
    · cases b
      · simp only [waitUntilReady, hpi]
        refine ⟨(ih (i + 1)).1, ?_⟩
        have h2 := (ih (i + 1)).2
        simp only [countWaitProbes, List.countP_cons] at h2 ⊢
        simp [isWaitProbe, h2]
      · exact absurd hpi (hp i)

/-- Every sleep in the wait-loop trace is the fixed interval. -/
theorem waitUntilReady_sleep_fixed (p : Nat → Except Unit Bool) (int : Nat) :
    ∀ fuel i m, InitEffect.sleep m ∈ (waitUntilReady p int fuel i).2 → m = int := by
  intro fuel
  induction fuel with
  | zero => intro i m hm; simp [waitUntilReady] at hm
  | succ n ih =>
    intro i m hm
    rcases hpi : p i with u | b
    · simp only [waitUntilReady, hpi, List.mem_cons] at hm
      rcases hm with h | h | h
      · exact absurd h (by simp)
      · exact InitEffect.sleep.inj h
      · exact ih (i + 1) m h
    · cases b
      · simp only [waitUntilReady, hpi, List.mem_cons] at hm
        rcases hm with h | h | h
        · exact absurd h (by simp)
        · exact InitEffect.sleep.inj h
        · exact ih (i + 1) m h
      · simp only [waitUntilReady, hpi, List.mem_singleton] at hm
        exact absurd hm (by simp)

/-- C4.  Against an endpoint that never becomes ready (initial probe and
every wait probe fail or answer non-ok), the readiness wait performs
exactly 50 probes, every inter-attempt sleep is the fixed 300 ms, the loop
reports not-ready without throwing (it returns `false`, all probe errors
being caught), and `initBrowser` then fails with the startup-timeout error
`'Chrome failed to start'`. -/
theorem waitUntilReady_exhausts_on_dead_endpoint (env : InitEnv) (s : CliState)
    (path : String)
    (hmem : s.stagehandInstance = none)
    (hpath : env.chromePath = some path)
    (hinit : env.initialProbe ≠ Except.ok true)
    (hprobe : ∀ i, env.waitProbe i ≠ Except.ok true) :
    (waitUntilReady env.waitProbe 300 50 0).1 = false
    ∧ countWaitProbes (waitUntilReady env.waitProbe 300 50 0).2 = 50
    ∧ (∀ m, InitEffect.sleep m ∈ (waitUntilReady env.waitProbe 300 50 0).2 → m = 300)
    ∧ (initBrowser env s).ret = Except.error InitErr.startupTimeout := by
  obtain ⟨h1, h2⟩ := waitUntilReady_all_fail env.waitProbe 300 hprobe 50 0
  refine ⟨h1, h2, fun m hm => waitUntilReady_sleep_fixed env.waitProbe 300 50 0 m hm, ?_⟩
  rcases hr : env.initialProbe with u | b
  · simp [initBrowser, hmem, hpath, hr, h1]
  · cases b
    · simp [initBrowser, hmem, hpath, hr, h1]
    · exact absurd hr hinit

/-- Witness for C4: on an environment whose probes all throw, the wait
returns not-ready after exactly 50 probes and `initBrowser` reports the
startup timeout. -/
theorem waitUntilReady_exhausts_on_dead_endpoint_witness :
    (waitUntilReady timeoutInitEnv.waitProbe 300 50 0).1 = false
    ∧ countWaitProbes (waitUntilReady timeoutInitEnv.waitProbe 300 50 0).2 = 50
    ∧ (initBrowser timeoutInitEnv freshCliState).ret
        = Except.error InitErr.startupTimeout := by
  obtain ⟨h1, h2, _, h4⟩ := waitUntilReady_exhausts_on_dead_endpoint timeoutInitEnv
    freshCliState "/usr/bin/google-chrome" rfl rfl
    (by simp [timeoutInitEnv]) (fun i => by simp [timeoutInitEnv])
  exact ⟨h1, h2, h4⟩

/-! C5: a ready endpoint means reuse — no launch, no ledger entry. -/

/-- C5.  When the initial probe of the control endpoint answers ok,
`initBrowser` reuses the running browser: no Launcher invocation and no
Ownership Ledger write appears in the trace, and the
`weStartedChrome` flag stays `false`. -/
theorem initBrowser_reuse_skips_launch (env : InitEnv) (s : CliState)
    (hready : env.initialProbe = Except.ok true)
    (hflag : s.weStartedChrome = false) :
    (∀ cfg d, InitEffect.spawnChrome cfg d ∉ (initBrowser env s).trace)
    ∧ (∀ pid, InitEffect.writeLedger pid ∉ (initBrowser env s).trace)
    ∧ (initBrowser env s).state.weStartedChrome = false := by
  rcases hs : s.stagehandInstance with _ | a
  · rcases hp : env.chromePath with _ | path
    · simp [initBrowser, hs, hp, hflag]
    · simp only [initBrowser, hs, hp, hready]
      obtain ⟨hmemT, hflagT⟩ := initTail_trace_and_flag env s [InitEffect.initialProbe]
      refine ⟨?_, ?_, ?_⟩
      · intro cfg d hc
        rcases hmemT _ hc with h1 | ⟨h2, _⟩
        · simp at h1
        · simp [isSpawn] at h2
      · intro pid hc
        rcases hmemT _ hc with h1 | ⟨_, h2⟩
        · simp at h1
        · simp [isLedgerWrite] at h2
      · exact hflag ▸ hflagT
  · simp [initBrowser, hs, hflag]

/-- Witness for C5: with the endpoint already answering ok and a fresh
state, the run's trace holds no spawn and no ledger write and the flag
stays `false`. -/
theorem initBrowser_reuse_skips_launch_witness :
    (InitEffect.spawnChrome ⟨.ignore, .ignore, .ignore⟩ false
        ∉ (initBrowser reuseInitEnv freshCliState).trace)
    ∧ (InitEffect.writeLedger 77 ∉ (initBrowser reuseInitEnv freshCliState).trace)
    ∧ (initBrowser reuseInitEnv freshCliState).state.weStartedChrome = false := by
  obtain ⟨h1, h2, h3⟩ := initBrowser_reuse_skips_launch reuseInitEnv freshCliState rfl rfl
  exact ⟨h1 _ _, h2 77, h3⟩

/-! C6: the launch path spawns once and writes the ledger before the wait. -/

/-- The readiness-wait trace holds no Launcher invocation and no ledger
write. -/
theorem wait_trace_counts (p : Nat → Except Unit Bool) (int fuel i : Nat) :
    countSpawns (waitUntilReady p int fuel i).2 = 0
    ∧ countLedgerWrites (waitUntilReady p int fuel i).2 = 0 := by
  constructor
  · rw [countSpawns, List.countP_eq_zero]
    intro e he
    rcases mem_wait_trace p int fuel i e he with ⟨j, rfl⟩ | ⟨m, rfl⟩ <;> simp [isSpawn]
  · rw [countLedgerWrites, List.countP_eq_zero]
    intro e he
    rcases mem_wait_trace p int fuel i e he with ⟨j, rfl⟩ | ⟨m, rfl⟩ <;> simp [isLedgerWrite]

/-- The page-readiness trace holds no Launcher invocation and no ledger
write. -/
theorem page_trace_counts (g : Nat → Bool) (fuel r : Nat) :
    countSpawns (pageReadyLoop g fuel r).2 = 0
    ∧ countLedgerWrites (pageReadyLoop g fuel r).2 = 0 := by
  constructor
  · rw [countSpawns, List.countP_eq_zero]
    intro e he
    rcases mem_page_trace g fuel r e he with ⟨j, rfl⟩ | ⟨m, rfl⟩ <;> simp [isSpawn]
  · rw [countLedgerWrites, List.countP_eq_zero]
    intro e he
    rcases mem_page_trace g fuel r e he with ⟨j, rfl⟩ | ⟨m, rfl⟩ <;> simp [isLedgerWrite]

/-- The Stagehand tail preserves the number of Launcher invocations and of
ledger writes in the trace. -/
theorem initTail_counts (env : InitEnv) (s : CliState) (t : List InitEffect) :
    countSpawns (initTail env s t).trace = countSpawns t
    ∧ countLedgerWrites (initTail env s t).trace = countLedgerWrites t := by
  have hp1 := (page_trace_counts env.pageEval 30 0).1
  have hp2 := (page_trace_counts env.pageEval 30 0).2
  rw [countSpawns] at hp1
  rw [countLedgerWrites] at hp2
  unfold initTail
  rcases hi : env.stagehandInitResult with u | u
  · simp [countSpawns, countLedgerWrites, List.countP_append, List.countP_cons,
      isSpawn, isLedgerWrite]
  · rcases hc : env.cdpDownloadConfig with v | v <;>
      rcases hd : env.downloadsDirExists <;>
      simp [countSpawns, countLedgerWrites, List.countP_append, List.countP_cons,
        isSpawn, isLedgerWrite, hp1, hp2, hd]

/-- The Stagehand tail only appends to the trace it is given. -/
theorem initTail_trace_append (env : InitEnv) (s : CliState) (t : List InitEffect) :
    ∃ u, (initTail env s t).trace = t ++ u := by
  rcases hi : env.stagehandInitResult with u | u <;> simp only [initTail, hi]
  · exact ⟨[InitEffect.stagehandInit], rfl⟩
  · rcases hc : env.cdpDownloadConfig with v | v <;> simp only [hc] <;>
      refine ⟨[InitEffect.stagehandInit] ++ (pageReadyLoop env.pageEval 30 0).2
        ++ (if env.downloadsDirExists = true then [] else [InitEffect.mkdirDownloads])
        ++ [InitEffect.setDownloadBehavior], ?_⟩ <;>
      simp [List.append_assoc]

/-- When no handle is memoized, Chrome is found, and the initial probe does
not answer ok, `initBrowser` takes the launch path. -/
theorem initBrowser_launch_eq (env : InitEnv) (s : CliState) (path : String)
    (hmem : s.stagehandInstance = none)
    (hpath : env.chromePath = some path)
    (hnr : env.initialProbe ≠ Except.ok true) :
    initBrowser env s =
      (let w := waitUntilReady env.waitProbe 300 50 0
       let t := [InitEffect.initialProbe,
                 InitEffect.spawnChrome ⟨.ignore, .ignore, .ignore⟩ false]
                ++ ledgerWriteTrace env.spawnPid ++ w.2
       if w.1 then
         initTail env { s with chromeProcess := true, weStartedChrome := true } t
       else
         { state := { s with chromeProcess := true },
           ret := Except.error InitErr.startupTimeout, trace := t }) := by
  rcases hr : env.initialProbe with u | b
  · simp [initBrowser, hmem, hpath, hr]
  · cases b
    · simp [initBrowser, hmem, hpath, hr]
    · exact absurd hr hnr

/-- C6 (amended).  When the initial probe reports not-ready and a browser
executable is found, `initBrowser` invokes the Launcher exactly once and,
provided the spawned handle reports a (truthy) pid, writes exactly one
Ownership Ledger entry keyed by that pid, placed in the trace between the
spawn and the readiness wait — i.e. before the wait begins. -/
theorem initBrowser_launch_once (env : InitEnv) (s : CliState) (path : String) (pid : Nat)
    (hmem : s.stagehandInstance = none)
    (hpath : env.chromePath = some path)
    (hnr : env.initialProbe ≠ Except.ok true)
    (hpid : env.spawnPid = some pid)
    (hpos : 0 < pid) :
    List.IsPrefix
        ([InitEffect.initialProbe,
          InitEffect.spawnChrome ⟨.ignore, .ignore, .ignore⟩ false,
          InitEffect.writeLedger pid]
          ++ (waitUntilReady env.waitProbe 300 50 0).2)
        (initBrowser env s).trace
    ∧ countSpawns (initBrowser env s).trace = 1
    ∧ countLedgerWrites (initBrowser env s).trace = 1 := by
  have hw1 := (wait_trace_counts env.waitProbe 300 50 0).1
  have hw2 := (wait_trace_counts env.waitProbe 300 50 0).2
  rw [countSpawns] at hw1
  rw [countLedgerWrites] at hw2
  simp only [initBrowser_launch_eq env s path hmem hpath hnr]
  rcases hw : (waitUntilReady env.waitProbe 300 50 0).1
  · rw [if_neg (by simp [hw])]
    refine ⟨?_, ?_, ?_⟩
    · simp only [ledgerWriteTrace, hpid, if_pos hpos]
      simp [List.append_assoc]
    · simp [countSpawns, List.countP_append, List.countP_cons, isSpawn,
        ledgerWriteTrace, hpid, hpos, hw1]
    · simp [countLedgerWrites, List.countP_append, List.countP_cons, isLedgerWrite,
        ledgerWriteTrace, hpid, hpos, hw2]
  · rw [if_pos rfl]
    obtain ⟨u, hu⟩ := initTail_trace_append env
      { s with chromeProcess := true, weStartedChrome := true }
      ([InitEffect.initialProbe,
        InitEffect.spawnChrome ⟨.ignore, .ignore, .ignore⟩ false]
       ++ ledgerWriteTrace env.spawnPid ++ (waitUntilReady env.waitProbe 300 50 0).2)
    obtain ⟨hc1, hc2⟩ := initTail_counts env
      { s with chromeProcess := true, weStartedChrome := true }
      ([InitEffect.initialProbe,
        InitEffect.spawnChrome ⟨.ignore, .ignore, .ignore⟩ false]
       ++ ledgerWriteTrace env.spawnPid ++ (waitUntilReady env.waitProbe 300 50 0).2)
    refine ⟨⟨u, ?_⟩, ?_, ?_⟩
    · rw [hu]
      simp only [ledgerWriteTrace, hpid, if_pos hpos]
      simp [List.append_assoc]
    · rw [hc1]
      simp [countSpawns, List.countP_append, List.countP_cons, isSpawn,
        ledgerWriteTrace, hpid, hpos, hw1]
    · rw [hc2]
      simp [countLedgerWrites, List.countP_append, List.countP_cons, isLedgerWrite,
        ledgerWriteTrace, hpid, hpos, hw2]

/-- C6 counterexample: in a run in which the initial probe reports
not-ready, Chrome is found and spawned (exactly one Launcher invocation),
but the spawned handle reports no pid (`chromeProcess.pid` undefined), the
guard `if (chromeProcess.pid)` skips the write: no Ownership Ledger entry
is persisted, refuting the claim that every such invocation persists
exactly one entry. -/
theorem initBrowser_launch_no_ledger_counterexample :
    noPidInitEnv.initialProbe = Except.ok false
    ∧ countSpawns (initBrowser noPidInitEnv freshCliState).trace = 1
    ∧ countLedgerWrites (initBrowser noPidInitEnv freshCliState).trace = 0 := by
  decide

/-- Witness for C6 (amended): a concrete launch run with pid 77 spawns
once and writes the ledger entry once, before the readiness wait. -/
theorem initBrowser_launch_once_witness :
    List.IsPrefix
        ([InitEffect.initialProbe,
          InitEffect.spawnChrome ⟨.ignore, .ignore, .ignore⟩ false,
          InitEffect.writeLedger 77]
          ++ (waitUntilReady launchInitEnv.waitProbe 300 50 0).2)
        (initBrowser launchInitEnv freshCliState).trace
    ∧ countSpawns (initBrowser launchInitEnv freshCliState).trace = 1
    ∧ countLedgerWrites (initBrowser launchInitEnv freshCliState).trace = 1 :=
  initBrowser_launch_once launchInitEnv freshCliState "/usr/bin/google-chrome" 77
    rfl rfl (by decide) rfl (by decide)

/-! C7: acquisition is memoized within one invocation. -/

/-- C7.  If an in-memory handle already exists, `initBrowser` (cli) and
`getStagehand` (tools server) return the memoized `(stagehand, page)` pair
unchanged, leave the module state untouched, and issue no effect at all —
no probe, no launch, no re-initialization: at most one browser-control
initialization per invocation. -/
theorem acquire_memoized (env : InitEnv) (s : CliState) (tenv : ToolsEnv)
    (ts : ToolsState) (a b : Nat)
    (hs : s.stagehandInstance = some a)
    (hts : ts.stagehandInstance = some b) :
    initBrowser env s
      = { state := s, ret := Except.ok (a, s.currentPage), trace := [] }
    ∧ getStagehand tenv ts
      = { state := ts, ret := Except.ok (b, ts.currentPage), trace := [] } := by
  constructor
  · simp [initBrowser, hs]
  · simp [getStagehand, hts]

/-- Witness for C7: with handle 5 and page 9 memoized, both acquisition
functions return exactly that pair with an empty trace. -/
theorem acquire_memoized_witness :
    initBrowser reuseInitEnv memoCliState
      = { state := memoCliState, ret := Except.ok (5, some 9), trace := [] }
    ∧ getStagehand launchToolsEnv memoToolsState
      = { state := memoToolsState, ret := Except.ok (5, some 9), trace := [] } :=
  acquire_memoized reuseInitEnv memoCliState launchToolsEnv memoToolsState 5 5 rfl rfl

/-! C8: stdio configuration of the two launchers. -/

/-- No Launcher invocation appears inside the readiness-wait trace. -/
theorem spawn_not_in_wait (p : Nat → Except Unit Bool) (int fuel i : Nat)
    (cfg : StdioConfig) (d : Bool) :
    InitEffect.spawnChrome cfg d ∉ (waitUntilReady p int fuel i).2 := by
  intro h
  rcases mem_wait_trace p int fuel i _ h with ⟨j, hj⟩ | ⟨m, hm⟩
  · exact absurd hj (by simp)
  · exact absurd hm (by simp)

/-- No Launcher invocation appears inside the page-readiness trace. -/
theorem spawn_not_in_page (g : Nat → Bool) (fuel r : Nat)
    (cfg : StdioConfig) (d : Bool) :
    InitEffect.spawnChrome cfg d ∉ (pageReadyLoop g fuel r).2 := by
  intro h
  rcases mem_page_trace g fuel r _ h with ⟨j, hj⟩ | ⟨m, hm⟩
  · exact absurd hj (by simp)
  · exact absurd hm (by simp)

/-- Any spawn effect found in the cli launch prefix is the literal
all-ignored spawn. -/
theorem spawn_in_launch_prefix (env : InitEnv) (cfg : StdioConfig) (d : Bool)
    (hc : InitEffect.spawnChrome cfg d ∈
      ([InitEffect.initialProbe,
        InitEffect.spawnChrome ⟨.ignore, .ignore, .ignore⟩ false]
       ++ ledgerWriteTrace env.spawnPid
       ++ (waitUntilReady env.waitProbe 300 50 0).2)) :
    cfg = ⟨.ignore, .ignore, .ignore⟩ ∧ d = false := by
  rw [List.append_assoc, List.mem_append] at hc
  rcases hc with h | h
  · simp only [List.mem_cons, List.not_mem_nil, or_false] at h
    rcases h with h | h
    · exact absurd h (by simp)
    · exact InitEffect.spawnChrome.inj h
  · rw [List.mem_append] at h
    rcases h with h | h
    · rcases hsp : env.spawnPid with _ | q <;> rw [hsp] at h
      · simp [ledgerWriteTrace] at h
      · by_cases h0 : 0 < q <;> simp [ledgerWriteTrace, h0] at h
    · exact absurd h (spawn_not_in_wait env.waitProbe 300 50 0 cfg d)

/-- In the launch branch of `initBrowser`, any spawn in the trace is the
literal all-ignored spawn. -/
theorem initBrowser_spawn_launch_case (env : InitEnv) (s : CliState) (path : String)
    (cfg : StdioConfig) (d : Bool)
    (hs : s.stagehandInstance = none)
    (hp : env.chromePath = some path)
    (hnr : env.initialProbe ≠ Except.ok true)
    (hc : InitEffect.spawnChrome cfg d ∈ (initBrowser env s).trace) :
    cfg = ⟨.ignore, .ignore, .ignore⟩ ∧ d = false := by
  simp only [initBrowser_launch_eq env s path hs hp hnr] at hc
  rcases hw : (waitUntilReady env.waitProbe 300 50 0).1 <;> rw [hw] at hc
  · rw [if_neg (by simp)] at hc
    exact spawn_in_launch_prefix env cfg d hc
  · rw [if_pos rfl] at hc
    rcases (initTail_trace_and_flag env
      { s with chromeProcess := true, weStartedChrome := true } _).1 _ hc with
      h | ⟨h2, _⟩
    · exact spawn_in_launch_prefix env cfg d h
    · simp [isSpawn] at h2

/-- Every spawn of `initBrowser` launches with `stdio: 'ignore'` (all three
streams detached) and no stream handlers. -/
theorem initBrowser_spawn_all_ignored (env : InitEnv) (s : CliState)
    (cfg : StdioConfig) (d : Bool)
    (hc : InitEffect.spawnChrome cfg d ∈ (initBrowser env s).trace) :
    cfg = ⟨.ignore, .ignore, .ignore⟩ ∧ d = false := by
  rcases hs : s.stagehandInstance with _ | a
  · rcases hp : env.chromePath with _ | path
    · simp [initBrowser, hs, hp] at hc
    · rcases hr : env.initialProbe with u | b
      · exact initBrowser_spawn_launch_case env s path cfg d hs hp (by simp [hr]) hc
      · cases b
        · exact initBrowser_spawn_launch_case env s path cfg d hs hp (by simp [hr]) hc
        · simp only [initBrowser, hs, hp, hr] at hc
          rcases (initTail_trace_and_flag env s [InitEffect.initialProbe]).1 _ hc with
            h | ⟨h2, _⟩
          · simp at h
          · simp [isSpawn] at h2
  · simp [initBrowser, hs] at hc

/-- Every spawn of `getStagehand` launches with
`stdio: ['ignore', 'pipe', 'pipe']` and `data` handlers attached to the
piped output streams. -/
theorem getStagehand_spawn_pipes (tenv : ToolsEnv) (ts : ToolsState)
    (cfg : StdioConfig) (d : Bool)
    (hc : InitEffect.spawnChrome cfg d ∈ (getStagehand tenv ts).trace) :
    cfg = ⟨.ignore, .pipe, .pipe⟩ ∧ d = true := by
  rcases hs : ts.stagehandInstance with _ | a
  · rcases hp : tenv.chromePath with _ | path
    · simp [getStagehand, hs, hp] at hc
    · simp only [getStagehand, hs, hp] at hc
      rcases hw : (waitUntilReady tenv.waitProbe 300 50 0).1 <;> rw [hw] at hc
      · rw [if_neg (by simp)] at hc
        simp only [List.mem_append, List.mem_singleton] at hc
        rcases hc with h | h
        · exact InitEffect.spawnChrome.inj h
        · exact absurd h (spawn_not_in_wait tenv.waitProbe 300 50 0 cfg d)
      · rw [if_pos rfl] at hc
        rcases hi : tenv.stagehandInitResult with u | u <;> simp only [hi] at hc
        · simp only [List.append_assoc, List.mem_append, List.mem_cons,
            List.not_mem_nil, or_false, List.mem_singleton] at hc
          rcases hc with h | h | h
          · exact InitEffect.spawnChrome.inj h
          · exact absurd h (spawn_not_in_wait tenv.waitProbe 300 50 0 cfg d)
          · exact absurd h (by simp)
        · by_cases hpr : 30 ≤ (pageReadyLoop tenv.pageEval 30 0).1 <;>
            simp only [hpr, if_pos, if_neg, if_true, if_false] at hc
          · simp only [List.append_assoc, List.mem_append, List.mem_cons,
              List.not_mem_nil, or_false, List.mem_singleton] at hc
            rcases hc with h | h | h
            · exact InitEffect.spawnChrome.inj h
            · exact absurd h (spawn_not_in_wait tenv.waitProbe 300 50 0 cfg d)
            · rcases h with h | h
              · exact absurd h (by simp)
              · exact absurd h (spawn_not_in_page tenv.pageEval 30 0 cfg d)
          · rcases hcd : tenv.cdpDownloadConfig with v | v <;> simp only [hcd] at hc <;>
            · simp only [List.append_assoc, List.mem_append, List.mem_cons,
                List.not_mem_nil, or_false, List.mem_singleton] at hc
              rcases hc with h | h | h
              · exact InitEffect.spawnChrome.inj h
              · exact absurd h (spawn_not_in_wait tenv.waitProbe 300 50 0 cfg d)
              · rcases h with h | h
                · exact absurd h (by simp)
                · rcases h with h | h
                  · exact absurd h (spawn_not_in_page tenv.pageEval 30 0 cfg d)
                  · rcases h with h | h
                    · rcases hd : tenv.downloadsDirExists <;> simp [hd] at h
                    · exact absurd h (by simp)
  · simp [getStagehand, hs] at hc

/-- C8 counterexample: the tools-server launcher (`stagehand-tools.ts`)
spawns Chrome with `stdio: ['ignore', 'pipe', 'pipe']` — stdout and stderr
are piped, not detached — refuting the claim that every Launcher invocation
detaches all three standard streams. -/
theorem launcher_stdio_counterexample :
    InitEffect.spawnChrome ⟨.ignore, .pipe, .pipe⟩ true
        ∈ (getStagehand launchToolsEnv freshToolsState).trace
    ∧ (⟨.ignore, .pipe, .pipe⟩ : StdioConfig) ≠ ⟨.ignore, .ignore, .ignore⟩ := by
  decide

/-- C8 (amended).  The cli launcher (`src/cli.ts`) spawns the browser with
`stdio: 'ignore'` — all three standard streams detached, no handlers —
while the tools-server launcher (`stagehand-tools.ts`) ignores stdin but
pipes stdout and stderr, attaching `data` listeners that drain them; in
both cases no launch leaves an unread piped stream. -/
theorem launcher_stdio_modes (env : InitEnv) (s : CliState) (tenv : ToolsEnv)
    (ts : ToolsState) (cfg : StdioConfig) (d : Bool) :
    (InitEffect.spawnChrome cfg d ∈ (initBrowser env s).trace →
      cfg = ⟨.ignore, .ignore, .ignore⟩ ∧ d = false)
    ∧ (InitEffect.spawnChrome cfg d ∈ (getStagehand tenv ts).trace →
      cfg = ⟨.ignore, .pipe, .pipe⟩ ∧ d = true) :=
  ⟨fun hc => initBrowser_spawn_all_ignored env s cfg d hc,
   fun hc => getStagehand_spawn_pipes tenv ts cfg d hc⟩

/-- Witness for C8 (amended): a concrete tools-server launch contains the
piped spawn, and the theorem identifies its configuration. -/
theorem launcher_stdio_modes_witness :
    InitEffect.spawnChrome ⟨.ignore, .pipe, .pipe⟩ true
        ∈ (getStagehand launchToolsEnv freshToolsState).trace
    ∧ ((⟨.ignore, .pipe, .pipe⟩ : StdioConfig) = ⟨.ignore, .pipe, .pipe⟩
        ∧ (true : Bool) = true) :=
  ⟨by decide,
   (launcher_stdio_modes timeoutInitEnv freshCliState launchToolsEnv freshToolsState
      ⟨.ignore, .pipe, .pipe⟩ true).2 (by decide)⟩

end AgentBrowse
